import Mathlib

/-!
Verification of the 2D kinematic simulation step (`update_player` in
`game_runner.c`) against its natural-language specification.

Positions and velocities, `float` in the C source, are modeled as exact
rationals (`ℚ`); obstacle coordinates, `int` in the C source, are modeled
as integers (`ℤ`).  The simulation step is embedded phase by phase in the
order the C function executes them: input interpretation, horizontal
resolution, vertical resolution, out-of-world recovery.  Boolean tests of
the C source become decidable propositions, so every definition remains
executable on concrete inputs.
-/

namespace GameRunner

/-- `WINDOW_WIDTH` from game_runner.c (the spec calls it `WORLD_WIDTH`). -/
def WINDOW_WIDTH : ℚ := 800

/-- `WINDOW_HEIGHT` from game_runner.c (the spec calls it `WORLD_HEIGHT`). -/
def WINDOW_HEIGHT : ℚ := 600

/-- `PLAYER_SIZE` from game_runner.c (the spec calls it `SIZE`). -/
def PLAYER_SIZE : ℚ := 20

/-- `BLOCK_SIZE` from game_runner.c (the spec calls it `BLOCK`). -/
def BLOCK_SIZE : ℚ := 40

/-- `GRAVITY` = 0.5f from game_runner.c. -/
def GRAVITY : ℚ := 1/2

/-- `JUMP_STRENGTH` = -12.0f from game_runner.c. -/
def JUMP_STRENGTH : ℚ := -12

/-- `MOVE_SPEED` = 5.0f from game_runner.c. -/
def MOVE_SPEED : ℚ := 5

/-- `SPAWN_X`: the x coordinate the player is reset to (literal 100 in
`update_player`, matching the initial spawn pose in `main`). -/
def SPAWN_X : ℚ := 100

/-- `SPAWN_Y`: the y coordinate the player is reset to (literal 400 in
`update_player`, matching the initial spawn pose in `main`). -/
def SPAWN_Y : ℚ := 400

/-- `struct Player`: the mutable kinematic state of the controlled body. -/
structure Player where
  x : ℚ
  y : ℚ
  vx : ℚ
  vy : ℚ
  on_ground : Bool
deriving DecidableEq, Repr

/-- `struct Block`: one fixed-size static obstacle cell, by its top-left
corner. -/
structure Block where
  x : ℤ
  y : ℤ
deriving DecidableEq, Repr

/-- The per-tick input snapshot: the three key groups `update_player`
reads (left/A, right/D, space/up/W), each collapsed to one boolean as in
the spec's `InputState`. -/
structure InputState where
  left : Bool
  right : Bool
  jump : Bool
deriving DecidableEq, Repr

/-- `check_collision` from game_runner.c: AABB overlap between the
`PLAYER_SIZE` square at `(px, py)` and the `BLOCK_SIZE` square at
`(bx, b_y)`, all four half-plane tests strict, in source order. -/
def check_collision (px py : ℚ) (bx b_y : ℤ) : Prop :=
  px < (bx : ℚ) + BLOCK_SIZE ∧
  px + PLAYER_SIZE > (bx : ℚ) ∧
  py < (b_y : ℚ) + BLOCK_SIZE ∧
  py + PLAYER_SIZE > (b_y : ℚ)

instance (px py : ℚ) (bx b_y : ℤ) : Decidable (check_collision px py bx b_y) := by
  unfold check_collision; infer_instance

/-- The `level` array from game_runner.c: the hardcoded obstacle layout. -/
def level : List Block :=
  [⟨0, 560⟩, ⟨40, 560⟩, ⟨80, 560⟩, ⟨120, 560⟩, ⟨160, 560⟩, ⟨200, 560⟩,
   ⟨240, 560⟩, ⟨280, 560⟩, ⟨320, 560⟩, ⟨360, 560⟩, ⟨400, 560⟩, ⟨440, 560⟩,
   ⟨480, 560⟩, ⟨520, 560⟩, ⟨560, 560⟩, ⟨600, 560⟩, ⟨640, 560⟩, ⟨680, 560⟩,
   ⟨720, 560⟩, ⟨760, 560⟩,
   ⟨200, 480⟩, ⟨240, 480⟩, ⟨280, 480⟩,
   ⟨400, 400⟩, ⟨440, 400⟩,
   ⟨600, 320⟩, ⟨640, 320⟩, ⟨680, 320⟩,
   ⟨100, 360⟩, ⟨140, 360⟩,
   ⟨500, 240⟩, ⟨540, 240⟩, ⟨580, 240⟩]

/-- Input-interpretation phase of `update_player` (lines 83-98):
`vx` is rebuilt from zero with left tested first and right overriding it,
the jump impulse fires only when a jump key is held and `on_ground` is
true, and then gravity is added to `vy` unconditionally. -/
def applyInput (keys : InputState) (p : Player) : Player :=
  let vx0 : ℚ := 0
  let vx1 : ℚ := if keys.left then -MOVE_SPEED else vx0
  let vx2 : ℚ := if keys.right then MOVE_SPEED else vx1
  let vy1 : ℚ := if keys.jump && p.on_ground then JUMP_STRENGTH else p.vy
  let g1 : Bool := if keys.jump && p.on_ground then false else p.on_ground
  { p with vx := vx2, vy := vy1 + GRAVITY, on_ground := g1 }

/-- Horizontal-resolution phase of `update_player` (lines 106-118):
`new_x = x + vx` is tested against every obstacle at the current `y`
(the loop sets `x_collision` on the first hit and breaks, so it computes
exactly "some obstacle overlaps"); the move commits only when no
obstacle overlaps and `new_x` is inside
`[0, WINDOW_WIDTH - PLAYER_SIZE]`. -/
def horizontalStep (lvl : List Block) (p : Player) : Player :=
  let new_x : ℚ := p.x + p.vx
  if (¬ ∃ b ∈ lvl, check_collision new_x p.y b.x b.y) ∧
     new_x ≥ 0 ∧ new_x ≤ WINDOW_WIDTH - PLAYER_SIZE then
    { p with x := new_x }
  else p

/-- The vertical scan loop of `update_player` (lines 130-143): walk the
obstacle list in order, and on the first obstacle overlapping
`(x, new_y)` resolve by the sign of `vy` and break; returns the resulting
`(y, vy, on_ground)` triple, with `on_ground` pessimistically false when
the loop falls through (the `y = new_y` commit of the no-collision case
is applied by `verticalStep`). -/
def vscan (x new_y vy : ℚ) : List Block → ℚ × ℚ × Bool
  | [] => (new_y, vy, false)
  | b :: rest =>
    if check_collision x new_y b.x b.y then
      if vy > 0 then ((b.y : ℚ) - PLAYER_SIZE, 0, true)
      else ((b.y : ℚ) + BLOCK_SIZE, 0, false)
    else vscan x new_y vy rest

/-- Vertical-resolution phase of `update_player` (lines 126-147):
`new_y = y + vy` at the already-updated `x`, first-match scan, commit
`new_y` when nothing overlaps. -/
def verticalStep (lvl : List Block) (p : Player) : Player :=
  let new_y : ℚ := p.y + p.vy
  let r := vscan p.x new_y p.vy lvl
  { p with y := r.1, vy := r.2.1, on_ground := r.2.2 }

/-- Out-of-world recovery of `update_player` (lines 150-154): when
`y > WINDOW_HEIGHT`, reset `x`, `y`, `vy` to the spawn pose, leaving `vx`
and `on_ground` untouched. -/
def respawnStep (p : Player) : Player :=
  if p.y > WINDOW_HEIGHT then { p with x := SPAWN_X, y := SPAWN_Y, vy := 0 }
  else p

/-- `update_player` from game_runner.c: the whole simulation step, the
four phases in source order. -/
def update_player (lvl : List Block) (keys : InputState) (p : Player) : Player :=
  respawnStep (verticalStep lvl (horizontalStep lvl (applyInput keys p)))

/-- The vertical resolution as the specification words it (§4.5): find
the first obstacle overlapping `(x, candidate_y)`; snap on top with
`grounded = true` when falling, snap below with `grounded = false`
otherwise; commit `candidate_y` with `grounded = false` when none
overlaps. -/
def verticalResolutionSpec (lvl : List Block) (p : Player) : Player :=
  let candidate_y : ℚ := p.y + p.vy
  match lvl.find? (fun b => decide (check_collision p.x candidate_y b.x b.y)) with
  | none => { p with y := candidate_y, on_ground := false }
  | some b =>
    if p.vy > 0 then
      { p with y := (b.y : ℚ) - PLAYER_SIZE, vy := 0, on_ground := true }
    else
      { p with y := (b.y : ℚ) + BLOCK_SIZE, vy := 0, on_ground := false }

/-- The loop of `vscan` computes exactly the first-match resolution
described via `List.find?`. -/
theorem vscan_eq_find (x new_y vy : ℚ) (l : List Block) :
    vscan x new_y vy l =
      match l.find? (fun b => decide (check_collision x new_y b.x b.y)) with
      | none => (new_y, vy, false)
      | some b =>
        if vy > 0 then ((b.y : ℚ) - PLAYER_SIZE, 0, true)
        else ((b.y : ℚ) + BLOCK_SIZE, 0, false) := by
  induction l with
  | nil => simp [vscan, List.find?]
  | cons b rest ih =>
    simp only [vscan, List.find?_cons]
    by_cases h : check_collision x new_y b.x b.y
    · simp [h]
    · simp [h, ih]

/-- C1: the step computes `candidate_y = y + vy` on the state whose `x`
was already updated by the horizontal sub-step, scans the obstacle list
in its fixed order, resolves against the first overlapping obstacle
(snap on top with `vy = 0`, `grounded = true` when `vy > 0`; snap below
with `vy = 0`, `grounded` false when `vy ≤ 0`), and commits `candidate_y`
with no vertical bound clamp when no obstacle overlaps. -/
theorem claim_C1_vertical_resolution (lvl : List Block) (keys : InputState)
    (p : Player) :
    update_player lvl keys p =
      respawnStep (verticalStep lvl (horizontalStep lvl (applyInput keys p)))
    ∧ verticalStep lvl p = verticalResolutionSpec lvl p := by
  refine ⟨rfl, ?_⟩
  simp only [verticalStep, verticalResolutionSpec, vscan_eq_find]
  cases hf : List.find? (fun b => decide (check_collision p.x (p.y + p.vy) b.x b.y)) lvl with
  | none => simp
  | some b => by_cases hv : p.vy > 0 <;> simp [hv]

/-- C3: `check_collision` holds iff the `PLAYER_SIZE` square and the
`BLOCK_SIZE` square satisfy all four strict half-plane inequalities;
boxes whose edges exactly touch are not overlapping. -/
theorem claim_C3_collision_predicate (px py : ℚ) (bx b_y : ℤ) :
    (check_collision px py bx b_y ↔
      (px < (bx : ℚ) + BLOCK_SIZE ∧ px + PLAYER_SIZE > (bx : ℚ) ∧
       py < (b_y : ℚ) + BLOCK_SIZE ∧ py + PLAYER_SIZE > (b_y : ℚ)))
    ∧ (py + PLAYER_SIZE = (b_y : ℚ) → ¬ check_collision px py bx b_y) := by
  refine ⟨Iff.rfl, fun h hc => ?_⟩
  have h4 := hc.2.2.2
  rw [h] at h4
  exact lt_irrefl _ h4

/-- Witness for C3: the body at `y = 540` exactly touches (does not
overlap) the obstacle at `y = 560`, since `540 + PLAYER_SIZE = 560`. -/
theorem claim_C3_collision_predicate_witness :
    ¬ check_collision 100 540 100 560 :=
  (claim_C3_collision_predicate 100 540 100 560).2 (by norm_num [PLAYER_SIZE])

/-- C4: `vx` is recomputed from scratch each tick: `-MOVE_SPEED` when
only left is held, `+MOVE_SPEED` whenever right is held (right is tested
after left and overrides it), `0` when neither is held — for every
previous value of `vx`. -/
theorem claim_C4_horizontal_velocity (keys : InputState) (p : Player) :
    (keys.left = true → keys.right = false →
      (applyInput keys p).vx = -MOVE_SPEED)
    ∧ (keys.right = true → (applyInput keys p).vx = MOVE_SPEED)
    ∧ (keys.left = false → keys.right = false → (applyInput keys p).vx = 0) := by
  refine ⟨fun hl hr => ?_, fun hr => ?_, fun hl hr => ?_⟩
  · simp [applyInput, hl, hr]
  · simp [applyInput, hr]
  · simp [applyInput, hl, hr]

/-- Witness for C4: holding only left gives `vx = -MOVE_SPEED`. -/
theorem claim_C4_horizontal_velocity_witness :
    (applyInput ⟨true, false, false⟩ ⟨0, 0, 0, 0, false⟩).vx = -MOVE_SPEED :=
  (claim_C4_horizontal_velocity ⟨true, false, false⟩ ⟨0, 0, 0, 0, false⟩).1 rfl rfl

/-- C5: the jump impulse (`vy = JUMP_STRENGTH`, `grounded` cleared) fires
only when a jump key is held and `grounded` was true at the start of the
tick; gravity is then added to `vy` unconditionally, so holding jump
while airborne changes `vy` only by the gravity addition. -/
theorem claim_C5_jump_and_gravity (keys : InputState) (p : Player) :
    (applyInput keys p).vy =
      (if keys.jump && p.on_ground then JUMP_STRENGTH else p.vy) + GRAVITY
    ∧ (applyInput keys p).on_ground =
      (if keys.jump && p.on_ground then false else p.on_ground)
    ∧ (p.on_ground = false → (applyInput keys p).vy = p.vy + GRAVITY) := by
  refine ⟨rfl, rfl, fun h => ?_⟩
  simp [applyInput, h]

/-- Witness for C5: holding jump while airborne only adds gravity. -/
theorem claim_C5_jump_and_gravity_witness :
    (applyInput ⟨false, false, true⟩ ⟨0, 0, 0, 3, false⟩).vy = 3 + GRAVITY :=
  (claim_C5_jump_and_gravity ⟨false, false, true⟩ ⟨0, 0, 0, 3, false⟩).2.2 rfl

/-- C9: from body `{x=100, y=540, vx=0, vy=0, grounded=false}` over the
single obstacle `{x=100, y=560}` with no keys held, one tick yields
exactly `y = 540`, `vy = 0`, `grounded = true` (candidate `540.5`
overlaps, snap to `560 - 20 = 540`). -/
theorem claim_C9_concrete_scenario :
    update_player [⟨100, 560⟩] ⟨false, false, false⟩ ⟨100, 540, 0, 0, false⟩ =
      ⟨100, 540, 0, 0, true⟩ := by
  norm_num [update_player, respawnStep, verticalStep, horizontalStep,
    applyInput, vscan, check_collision, GRAVITY, PLAYER_SIZE, BLOCK_SIZE,
    WINDOW_WIDTH, WINDOW_HEIGHT]

/-- C2: with `candidate_x = x + vx` tested against every obstacle at the
current `y`: any overlap rejects the whole move (`x` unchanged, no
sliding or clamping); with no overlap, `x` becomes `candidate_x` exactly
when it lies within `[0, WINDOW_WIDTH - PLAYER_SIZE]`, and is otherwise
unchanged. -/
theorem claim_C2_horizontal_resolution (lvl : List Block) (p : Player) :
    ((∃ b ∈ lvl, check_collision (p.x + p.vx) p.y b.x b.y) →
      (horizontalStep lvl p).x = p.x)
    ∧ ((∀ b ∈ lvl, ¬ check_collision (p.x + p.vx) p.y b.x b.y) →
      0 ≤ p.x + p.vx → p.x + p.vx ≤ WINDOW_WIDTH - PLAYER_SIZE →
      (horizontalStep lvl p).x = p.x + p.vx)
    ∧ ((∀ b ∈ lvl, ¬ check_collision (p.x + p.vx) p.y b.x b.y) →
      ¬(0 ≤ p.x + p.vx ∧ p.x + p.vx ≤ WINDOW_WIDTH - PLAYER_SIZE) →
      (horizontalStep lvl p).x = p.x) := by
  refine ⟨fun h => ?_, fun hall h0 h1 => ?_, fun hall hnot => ?_⟩
  · simp only [horizontalStep]
    rw [if_neg fun hc => hc.1 h]
  · simp only [horizontalStep]
    rw [if_pos ⟨fun hc => by obtain ⟨b, hb, hcc⟩ := hc; exact hall b hb hcc, h0, h1⟩]
  · simp only [horizontalStep]
    rw [if_neg fun hc => hnot ⟨hc.2.1, hc.2.2⟩]

/-- Witness for C2: a body overlapping the obstacle at the candidate
position keeps its `x`. -/
theorem claim_C2_horizontal_resolution_witness :
    (horizontalStep [⟨0, 0⟩] ⟨0, 0, 0, 0, false⟩).x = 0 :=
  (claim_C2_horizontal_resolution [⟨0, 0⟩] ⟨0, 0, 0, 0, false⟩).1
    ⟨⟨0, 0⟩, by norm_num, by norm_num [check_collision, PLAYER_SIZE, BLOCK_SIZE]⟩

/-- C6: when the post-vertical-resolution state has `y > WINDOW_HEIGHT`,
the step resets `x`, `y`, `vy` to the spawn pose while `vx` and
`on_ground` keep the values this tick computed (the record update below
touches no other field); when `y ≤ WINDOW_HEIGHT` the state passes
through unchanged. -/
theorem claim_C6_respawn (lvl : List Block) (keys : InputState) (p : Player) :
    ((verticalStep lvl (horizontalStep lvl (applyInput keys p))).y >
        WINDOW_HEIGHT →
      update_player lvl keys p =
        { verticalStep lvl (horizontalStep lvl (applyInput keys p)) with
            x := SPAWN_X, y := SPAWN_Y, vy := 0 })
    ∧ (¬ (verticalStep lvl (horizontalStep lvl (applyInput keys p))).y >
        WINDOW_HEIGHT →
      update_player lvl keys p =
        verticalStep lvl (horizontalStep lvl (applyInput keys p))) := by
  refine ⟨fun h => ?_, fun h => ?_⟩
  · simp only [update_player, respawnStep]
    rw [if_pos h]
  · simp only [update_player, respawnStep]
    rw [if_neg h]

/-- Witness for C6: a body already below the world with no obstacle under
it falls past `WINDOW_HEIGHT` and is reset to the spawn pose. -/
theorem claim_C6_respawn_witness :
    (verticalStep [] (horizontalStep []
        (applyInput ⟨false, false, false⟩ ⟨100, 650, 0, 0, false⟩))).y >
      WINDOW_HEIGHT
    ∧ update_player [] ⟨false, false, false⟩ ⟨100, 650, 0, 0, false⟩ =
      { verticalStep [] (horizontalStep []
          (applyInput ⟨false, false, false⟩ ⟨100, 650, 0, 0, false⟩)) with
          x := SPAWN_X, y := SPAWN_Y, vy := 0 } :=
  ⟨by norm_num [verticalStep, horizontalStep, applyInput, vscan,
      check_collision, GRAVITY, WINDOW_HEIGHT, WINDOW_WIDTH, PLAYER_SIZE],
   (claim_C6_respawn [] ⟨false, false, false⟩ ⟨100, 650, 0, 0, false⟩).1
    (by norm_num [verticalStep, horizontalStep, applyInput, vscan,
      check_collision, GRAVITY, WINDOW_HEIGHT, WINDOW_WIDTH, PLAYER_SIZE])⟩

/-- C8: the horizontal sub-step gives the same result for any permutation
of the obstacle list — only the existence of an overlapping obstacle
matters there, not which one or in what order. -/
theorem claim_C8_horizontal_order_insensitive (l1 l2 : List Block)
    (p : Player) (h : l1.Perm l2) :
    horizontalStep l1 p = horizontalStep l2 p := by
  have hex : (∃ b ∈ l1, check_collision (p.x + p.vx) p.y b.x b.y) =
      (∃ b ∈ l2, check_collision (p.x + p.vx) p.y b.x b.y) := by
    refine propext ⟨fun ⟨b, hb, hc⟩ => ⟨b, h.mem_iff.mp hb, hc⟩,
      fun ⟨b, hb, hc⟩ => ⟨b, h.mem_iff.mpr hb, hc⟩⟩
  simp only [horizontalStep, hex]

/-- Witness for C8: swapping a two-obstacle list leaves the horizontal
sub-step's result unchanged. -/
theorem claim_C8_horizontal_order_insensitive_witness :
    horizontalStep [⟨0, 0⟩, ⟨40, 0⟩] ⟨100, 100, 5, 0, false⟩ =
      horizontalStep [⟨40, 0⟩, ⟨0, 0⟩] ⟨100, 100, 5, 0, false⟩ :=
  claim_C8_horizontal_order_insensitive _ _ _ (List.Perm.swap _ _ _)

/-- After the vertical sub-step, `on_ground` can only be true with
`vy = 0`: `on_ground` is set true only in the downward-collision branch,
which zeroes `vy` in the same breath. -/
theorem verticalStep_grounded_vy (lvl : List Block) (p : Player)
    (h : (verticalStep lvl p).on_ground = true) :
    (verticalStep lvl p).vy = 0 := by
  simp only [verticalStep, vscan_eq_find] at h ⊢
  cases hf : List.find? (fun b => decide (check_collision p.x (p.y + p.vy) b.x b.y)) lvl with
  | none =>
    rw [hf] at h
    simp at h
  | some b =>
    rw [hf] at h
    by_cases hv : 0 < p.vy <;> simp [hv] at h ⊢

/-- C10: at the end of a step, `grounded = true` implies `vy = 0`:
`grounded` is reset before the vertical scan, set true only in the
downward branch which zeroes `vy`, and the respawn path also zeroes `vy`
while leaving `grounded` untouched. -/
theorem claim_C10_grounded_implies_vy_zero (lvl : List Block)
    (keys : InputState) (p : Player)
    (h : (update_player lvl keys p).on_ground = true) :
    (update_player lvl keys p).vy = 0 := by
  simp only [update_player, respawnStep] at h ⊢
  by_cases hy : (verticalStep lvl (horizontalStep lvl (applyInput keys p))).y >
      WINDOW_HEIGHT
  · rw [if_pos hy]
  · rw [if_neg hy] at h ⊢
    exact verticalStep_grounded_vy _ _ h

/-- Witness for C10: the landing tick of the concrete scenario ends
grounded with `vy = 0`. -/
theorem claim_C10_grounded_implies_vy_zero_witness :
    (update_player [⟨100, 560⟩] ⟨false, false, false⟩
        ⟨100, 540, 0, 0, false⟩).on_ground = true
    ∧ (update_player [⟨100, 560⟩] ⟨false, false, false⟩
        ⟨100, 540, 0, 0, false⟩).vy = 0 := by
  have hg : (update_player [⟨100, 560⟩] ⟨false, false, false⟩
      ⟨100, 540, 0, 0, false⟩).on_ground = true := by
    norm_num [update_player, respawnStep, verticalStep, horizontalStep,
      applyInput, vscan, check_collision, GRAVITY, PLAYER_SIZE, BLOCK_SIZE,
      WINDOW_WIDTH, WINDOW_HEIGHT]
  exact ⟨hg, claim_C10_grounded_implies_vy_zero _ _ _ hg⟩

/-- Counterexample to C7 as stated: over the two stacked obstacles
`{100,560}` and `{100,540}`, the body `{x=100, y=500, vx=0, vy=44.5}`
overlaps no obstacle before the tick, yet the tick (gravity makes
`vy = 45`, candidate `y = 545` hits `{100,560}` first and snaps to
`y = 540`) ends with the body's box overlapping the obstacle
`{100,540}` — the vertical no-overlap invariant fails after the vertical
sub-step. -/
theorem claim_C7_counterexample :
    (⟨100, 540⟩ : Block) ∈ ([⟨100, 560⟩, ⟨100, 540⟩] : List Block)
    ∧ (∀ b ∈ ([⟨100, 560⟩, ⟨100, 540⟩] : List Block),
        ¬ check_collision (100 : ℚ) 500 b.x b.y)
    ∧ check_collision
        (update_player [⟨100, 560⟩, ⟨100, 540⟩] ⟨false, false, false⟩
          ⟨100, 500, 0, 89/2, false⟩).x
        (update_player [⟨100, 560⟩, ⟨100, 540⟩] ⟨false, false, false⟩
          ⟨100, 500, 0, 89/2, false⟩).y
        100 540 := by
  norm_num [update_player, respawnStep, verticalStep, horizontalStep,
    applyInput, vscan, check_collision, GRAVITY, PLAYER_SIZE, BLOCK_SIZE,
    WINDOW_WIDTH, WINDOW_HEIGHT]

/-- C7 amended: the horizontal sub-step preserves "no overlap with any
obstacle" when it held at the start of the tick; the vertical sub-step
leaves no overlap with any obstacle when no obstacle overlapped the
candidate position, and in the colliding case the body no longer
overlaps the obstacle it resolved against (it may still overlap a
different obstacle). -/
theorem claim_C7_amended (lvl : List Block) (p : Player) :
    ((∀ b ∈ lvl, ¬ check_collision p.x p.y b.x b.y) →
      ∀ b ∈ lvl, ¬ check_collision (horizontalStep lvl p).x
        (horizontalStep lvl p).y b.x b.y)
    ∧ (List.find? (fun b => decide (check_collision p.x (p.y + p.vy) b.x b.y))
        lvl = none →
      ∀ b ∈ lvl, ¬ check_collision (verticalStep lvl p).x
        (verticalStep lvl p).y b.x b.y)
    ∧ (∀ b : Block,
      List.find? (fun c => decide (check_collision p.x (p.y + p.vy) c.x c.y))
        lvl = some b →
      ¬ check_collision (verticalStep lvl p).x (verticalStep lvl p).y
        b.x b.y) := by
  refine ⟨fun hpre b hb => ?_, fun hnone b hb => ?_, fun b hfind => ?_⟩
  · simp only [horizontalStep]
    split_ifs with hc
    · exact fun hcc => hc.1 ⟨b, hb, hcc⟩
    · exact hpre b hb
  · have hnc := List.find?_eq_none.mp hnone b hb
    simp only [decide_eq_true_eq] at hnc
    simp only [verticalStep, vscan_eq_find, hnone]
    exact hnc
  · simp only [verticalStep, vscan_eq_find, hfind]
    by_cases hv : 0 < p.vy
    · simp only [gt_iff_lt, hv, if_true]
      intro hcc
      have h4 := hcc.2.2.2
      have : (b.y : ℚ) - PLAYER_SIZE + PLAYER_SIZE = (b.y : ℚ) := by ring
      rw [this] at h4
      exact lt_irrefl _ h4
    · simp only [gt_iff_lt, hv, if_false]
      intro hcc
      exact lt_irrefl _ hcc.2.2.1

/-- Witness for the amended C7: a body clear of the obstacle stays clear
of it through the horizontal sub-step. -/
theorem claim_C7_amended_witness :
    ¬ check_collision (horizontalStep [⟨0, 0⟩] ⟨100, 100, 5, 0, false⟩).x
      (horizontalStep [⟨0, 0⟩] ⟨100, 100, 5, 0, false⟩).y 0 0 :=
  (claim_C7_amended [⟨0, 0⟩] ⟨100, 100, 5, 0, false⟩).1
    (by norm_num [check_collision, PLAYER_SIZE, BLOCK_SIZE]) ⟨0, 0⟩
    (by norm_num)

end GameRunner
